import Mathlib

set_option maxRecDepth 100000

/-!
Verification of the proximity-filtering / selection / forecast pipeline of
`app.py` (Local Nature Reserve Finder).

The pipeline is embedded shallowly:

* A dataframe of reserves (`gdf`) is a `List Feature`; a feature carries its
  `LNR_NAME` and its geometry, of which only the shapely `centroid` property is
  ever used by the program.
* The external `haversine` library function is a parameter
  `hav : Point → Point → ℚ` (the program calls it as
  `haversine((start_lat, start_lon), (end_lat, end_lon), unit=Unit.MILES)`).
* Python `round(x, 2)` is `round2`, round-half-to-even at two decimal places
  over `ℚ`.
* The Met Office `datapoint` forecast provider is a parameter
  `Point → Except String (List Day)`: for a coordinate it either raises
  (`.error`) or yields the forecast days, each a list of timesteps.
* Module-level control flow around the `Confirm` button (lines 127-149 of
  `app.py`), including the unbound name `session_state`, is modelled by
  `runTopLevel`, an evaluator over an explicit environment of bound names.
-/

/-- A latitude/longitude pair.  Coordinates are modelled as rationals. -/
structure Point where
  lat : ℚ
  lon : ℚ
deriving DecidableEq, Repr

/-- The part of a shapely polygon geometry the program observes: its
`centroid` property (`polygon.centroid.y` / `polygon.centroid.x`). -/
structure Geometry where
  centroid : Point
deriving DecidableEq, Repr

/-- One row of the GeoDataFrame fetched by `fetch_geojson`:
the `LNR_NAME` field and the polygon `geometry`. -/
structure Feature where
  name : String
  geometry : Geometry
deriving DecidableEq, Repr

/-- Python `round(q, 2)`: round to two decimal places, ties to even
(the rounding used by the Python built-in `round`). -/
def round2 (q : ℚ) : ℚ :=
  let s : ℚ := q * 100
  let f : ℤ := Int.floor s
  let frac : ℚ := s - f
  let n : ℤ :=
    if frac < 1/2 then f
    else if 1/2 < frac then f + 1
    else if f % 2 = 0 then f else f + 1
  (n : ℚ) / 100

/-- Embedding of `distance_from_poly` (app.py lines 30-42): distance from a
start point to the centroid of `polygon`, via the external `haversine`,
rounded to 2 d.p. before being returned. -/
def distance_from_poly (hav : Point → Point → ℚ) (polygon : Geometry)
    (start : Point) : ℚ :=
  round2 (hav start polygon.centroid)

/-- Line 147 of app.py, the distance column assignment
`gdf[distance] = gdf[geometry].apply(distance_from_poly, args=(lat, lon))`:
annotate every feature with its distance column. -/
def annotate (hav : Point → Point → ℚ) (origin : Point)
    (gdf : List Feature) : List (Feature × ℚ) :=
  gdf.map (fun f => (f, distance_from_poly hav f.geometry origin))

/-- Line 149 of app.py, the row filter
`_nearby_parks = gdf[gdf[distance] <= distance_miles]`:
keep the rows whose distance column is ≤ the threshold. -/
def proximityFilter (hav : Point → Point → ℚ) (origin : Point)
    (gdf : List Feature) (threshold : ℚ) : List (Feature × ℚ) :=
  (annotate hav origin gdf).filter (fun fd => fd.2 ≤ threshold)

/-- Lines 157-158 of app.py: `_nearby_parks` restricted to the columns
`LNR_NAME` and `distance`, renamed to `Name` / `distance (miles)` — project to
the two columns shown in the table. -/
def nearby_parks (hav : Point → Point → ℚ) (origin : Point)
    (gdf : List Feature) (threshold : ℚ) : List (String × ℚ) :=
  (proximityFilter hav origin gdf threshold).map (fun fd => (fd.1.name, fd.2))

/-- Lines 164-165 of app.py:
`nearby_parks.sort_values(by=distance (miles), ascending=True).reset_index(drop=True)`
— the Ranked Candidate Set, sorted ascending by the distance column. -/
def rankedCandidateSet (hav : Point → Point → ℚ) (origin : Point)
    (gdf : List Feature) (threshold : ℚ) : List (String × ℚ) :=
  (nearby_parks hav origin gdf threshold).mergeSort
    (fun a b => decide (a.2 ≤ b.2))

/-- The default value of the `Show weather forecast` column built in
`dataframe_with_selections` (app.py lines 52-54): a column of `False` with the
row at index label 0 set to `True`. -/
def defaultMarks (df : List (String × ℚ)) : List Bool :=
  (List.replicate df.length false).set 0 true

/-- Embedding of `dataframe_with_selections` (app.py lines 44-66) after the
edit the user makes to the checkbox column: all original columns are
`disabled`, so an edit is exactly a boolean per row (`marks`); rows whose
flag is `True` are kept and the flag column dropped. -/
def dataframe_with_selections (df : List (String × ℚ))
    (marks : List Bool) : List (String × ℚ) :=
  ((df.zip marks).filter (fun p => p.2)).map (fun p => p.1)

/-- Line 240 of app.py:
`locations = gdf[gdf.LNR_NAME.isin(selection.Name.to_list())][geometry].centroid.to_list()`
— the centroids of the gdf rows whose name is selected, in gdf (fetch)
order. -/
def locations (gdf : List Feature) (selNames : List String) : List Point :=
  (gdf.filter (fun f => selNames.contains f.name)).map
    (fun f => f.geometry.centroid)

/-- `zip(locations, selection.Name.to_list())` (app.py line 245): the
(coordinate, name) pairs the forecast loop iterates over. -/
def selectionResolver (gdf : List Feature) (selNames : List String) :
    List (Point × String) :=
  (locations gdf selNames).zip selNames

/-- One timestep of a `datapoint` forecast day: the fields the loop at
app.py lines 259-264 reads. -/
structure Timestep where
  date : ℕ
  text : String
  temp : ℚ
  prec : ℚ
  wind : ℚ
deriving DecidableEq, Repr

/-- A forecast day is its list of timesteps (`day.timesteps`). -/
abbrev Day : Type := List Timestep

/-- One row of the per-location `forecast_df` built at app.py lines 266-272:
date, text, the three metric columns, and the `location` column. -/
structure ForecastRow where
  date : ℕ
  text : String
  temp : ℚ
  prec : ℚ
  wind : ℚ
  location : String
deriving DecidableEq, Repr

/-- The nested loops at app.py lines 256-272: flatten the forecast days of
one location into `forecast_df` rows, labelling each with the location
name. -/
def buildForecastDf (name : String) (days : List Day) : List ForecastRow :=
  days.flatMap (fun day =>
    day.map (fun ts => ⟨ts.date, ts.text, ts.temp, ts.prec, ts.wind, name⟩))

/-- The `for locs, name in zip(locations, selection.Name.to_list())` loop at
app.py lines 245-274.  Each iteration calls the provider (which may raise),
builds the `forecast_df` of that location and appends it to `locs_forecast`.
An exception anywhere is uncaught: the loop body has no `try`, so the whole
script run aborts with the provider error. -/
def forecastLoop (provider : Point → Except String (List Day))
    (pairs : List (Point × String)) : Except String (List (List ForecastRow)) :=
  match pairs with
  | [] => Except.ok []
  | (locs, name) :: rest =>
    match provider locs with
    | Except.error e => Except.error e
    | Except.ok days =>
      match forecastLoop provider rest with
      | Except.error e => Except.error e
      | Except.ok restDfs => Except.ok (buildForecastDf name days :: restDfs)

/-- `forecast_df = pd.concat(locs_forecast)` (app.py line 276) after the loop:
concatenate the per-location frames.  `pd.concat` of an empty list raises
ValueError. -/
def aggregateForecast (provider : Point → Except String (List Day))
    (pairs : List (Point × String)) : Except String (List ForecastRow) :=
  match forecastLoop provider pairs with
  | Except.error e => Except.error e
  | Except.ok dfs =>
    if dfs.isEmpty then Except.error "No objects to concatenate"
    else Except.ok dfs.flatten

/-- The block of rows a single (coordinate, name) pair contributes to the
aggregate forecast table when its lookup succeeds (empty if it fails). -/
def groupBlock (provider : Point → Except String (List Day))
    (p : Point × String) : List ForecastRow :=
  match provider p.1 with
  | Except.error _ => []
  | Except.ok days => buildForecastDf p.2 days

/-- Options of the `Select weather feature` selectbox (app.py lines 122-123). -/
def weatherOptions : List String :=
  ["Tempurature (°C)", "Chance of precipitation (%)", "Wind speed (mph)"]

/-- The columns of the per-location `forecast_df` (app.py lines 266-272),
hence of their concatenation. -/
def forecastColumns : List String :=
  ["date", "text", "Tempurature (°C)", "Chance of precipitation (%)",
   "Wind speed (mph)", "location"]

/-- Column lookup on a forecast row by metric-column name, as
`px.line(forecast_df, x=date, y=weather_type, color=location)`
(app.py line 279) performs it: `none` models the missing-column error. -/
def getMetric (c : String) (r : ForecastRow) : Option ℚ :=
  if c = "Tempurature (°C)" then some r.temp
  else if c = "Chance of precipitation (%)" then some r.prec
  else if c = "Wind speed (mph)" then some r.wind
  else none

/-- A Python runtime error observable in the modelled fragment. -/
inductive PyError where
  | nameError (n : String)
  | uncaught (msg : String)
deriving DecidableEq, Repr

/-- Evaluating a bare name in Python: a NameError unless the name is bound in
the enclosing scope. -/
def lookupName (env : List String) (n : String) : Except PyError Unit :=
  if env.contains n then Except.ok () else Except.error (PyError.nameError n)

/-- Names bound at module scope of `app.py` by the time line 140 runs on the
path where the postcode resolved (imports, the three `def`s, and the
module-level assignments of lines 101-137).  `session_state` is not among
them: the script never binds it. -/
def moduleNames : List String :=
  ["st", "pd", "np", "px", "go", "folium", "GeoJson", "Choropleth",
   "st_folium", "folium_static", "gpd", "requests", "Point", "haversine",
   "Unit", "datapoint", "miles_to_meters", "distance_from_poly",
   "dataframe_with_selections", "fetch_geojson", "gdf", "postcode_settings",
   "distance_settings", "weather_settings", "map_settings", "run_button",
   "postcode", "distance_miles", "map_type", "weather_type", "loc", "lat",
   "lon", "postcode_entered", "mapping", "information"]

/-- The warning emitted by the `except` branch of the postcode resolution
(app.py line 133). -/
def invalidPostcodeWarning : String :=
  "Please enter valid postcode to use this application"

/-- What one run of the module-level script fragment (app.py lines 127-293)
produced. -/
structure RunOutcome where
  warnings : List String
  errored : Option PyError
  pipelineRan : Bool
  ranked : List (String × ℚ)
  selection : List (String × ℚ)
  forecastRows : List ForecastRow
deriving DecidableEq, Repr

/-- The module-level control flow of app.py lines 127-293.

* Lines 127-134: the postcode `try`/`except` — on failure the warning is
  emitted and `postcode_entered` is set `False`.
* Lines 140-141: `if st.button(Confirm): session_state.button_clicked = True`
  — taking the branch evaluates the bare name `session_state` in `env`; a
  NameError aborts the script.
* Line 144: `if postcode_entered and session_state.button_clicked:` — `and`
  short-circuits, so the second conjunct (another evaluation of
  `session_state`) is reached only when the postcode resolved.
* Lines 146-293 (the guard body): distance annotation, threshold filter,
  empty-result check (line 151), ranked table + selection, the
  centroid/name zip and the forecast loop.  A provider exception is uncaught
  and aborts the run. -/
def runTopLevel (env : List String) (postcodeResolves buttonPressed : Bool)
    (hav : Point → Point → ℚ) (origin : Point) (gdf : List Feature)
    (threshold : ℚ) (marks : List Bool)
    (provider : Point → Except String (List Day)) : RunOutcome :=
  let warns : List String :=
    if postcodeResolves then [] else [invalidPostcodeWarning]
  let postcode_entered := postcodeResolves
  match (if buttonPressed then lookupName env "session_state"
         else Except.ok ()) with
  | Except.error e => ⟨warns, some e, false, [], [], []⟩
  | Except.ok _ =>
    if postcode_entered then
      match lookupName env "session_state" with
      | Except.error e => ⟨warns, some e, false, [], [], []⟩
      | Except.ok _ =>
        let nearby := proximityFilter hav origin gdf threshold
        if nearby.isEmpty then
          ⟨warns, none, true, [], [], []⟩
        else
          let ranked := rankedCandidateSet hav origin gdf threshold
          let sel := dataframe_with_selections ranked marks
          let pairs := selectionResolver gdf (sel.map (fun r => r.1))
          match aggregateForecast provider pairs with
          | Except.error e =>
            ⟨warns, some (PyError.uncaught e), true, ranked, sel, []⟩
          | Except.ok rows => ⟨warns, none, true, ranked, sel, rows⟩
    else
      ⟨warns, none, false, [], [], []⟩

/-! Concrete fixtures used by witnesses and counterexamples. -/

/-- A sample centroid. -/
def pA : Point := ⟨1, 1⟩

/-- Another sample centroid. -/
def pB : Point := ⟨2, 2⟩

/-- A sample origin point. -/
def originEx : Point := ⟨0, 0⟩

/-- A two-reserve frame in fetch order: reserve A first, reserve B second. -/
def gdfEx : List Feature := [⟨"A", ⟨pA⟩⟩, ⟨"B", ⟨pB⟩⟩]

/-- A distance oracle under which reserve A is 10 miles away and reserve B is
5 miles away, so ranked order (B before A) differs from fetch order. -/
def havEx : Point → Point → ℚ := fun _ c => if c = pA then 10 else 5

/-- A distance oracle returning the constant 15.004 miles. -/
def havC2 : Point → Point → ℚ := fun _ _ => 15 + 4/1000

/-- A single sample reserve. -/
def fEx : Feature := ⟨"R", ⟨⟨3, 3⟩⟩⟩

/-- A provider that succeeds at `pA` and fails everywhere else. -/
def provC4 : Point → Except String (List Day) :=
  fun p => if p = pA then Except.ok [[⟨1, "sun", 20, 10, 5⟩]]
           else Except.error "site lookup failed"

/-- A provider whose two forecast days arrive in reverse chronological
order. -/
def provC8 : Point → Except String (List Day) :=
  fun _ => Except.ok [[⟨2, "rain", 1, 2, 3⟩], [⟨1, "sun", 4, 5, 6⟩]]

/-- A provider whose timesteps are chronological. -/
def provGood : Point → Except String (List Day) :=
  fun _ => Except.ok [[⟨1, "sun", 20, 10, 5⟩], [⟨2, "cloud", 18, 30, 7⟩]]

/-! Claim theorems. -/

/-- C1: the Selection Resolver of app.py lines 240/245 zips centroids taken
in gdf fetch order against names taken in ranked order, so on a frame where
the two orders differ it pairs the name of reserve B with the centroid of
reserve A: with both rows of `gdfEx` selected, the resolver output pairs the
name B with `pA`, yet the reserve named B in `gdfEx` has centroid `pB ≠ pA`.
This evaluates the code at the failing input of the code_bug verdict. -/
theorem c1_zip_mispairs_names_and_centroids :
    selectionResolver gdfEx
        ((dataframe_with_selections (rankedCandidateSet havEx originEx gdfEx 15)
            [true, true]).map (fun r => r.1))
      = [(pA, "B"), (pB, "A")]
    ∧ pA ≠ pB
    ∧ (⟨"B", ⟨pB⟩⟩ : Feature) ∈ gdfEx := by
  refine ⟨by with_unfolding_all decide, by decide, by decide⟩

/-- C2 counterexample: with a haversine oracle returning 15.004 miles and a
threshold of 15, the true distance exceeds the threshold, yet the reserve is
a member of the proximity-filter output, because the code rounds to two
decimals inside `distance_from_poly` before the comparison at line 149. -/
theorem c2_counterexample :
    15 < havC2 originEx fEx.geometry.centroid
    ∧ (fEx, round2 (havC2 originEx fEx.geometry.centroid)) ∈
        proximityFilter havC2 originEx [fEx] 15 := by
  refine ⟨by with_unfolding_all decide, by with_unfolding_all decide⟩

/-- C2 amended: the value the threshold filter of line 149 compares is the
2-d.p.-rounded distance, not the unrounded haversine distance — a feature is
in the filter output exactly when its rounded distance is ≤ the threshold. -/
theorem c2_rounded_before_compare (hav : Point → Point → ℚ) (origin : Point)
    (gdf : List Feature) (t : ℚ) (f : Feature) (hf : f ∈ gdf) :
    ((f, round2 (hav origin f.geometry.centroid)) ∈
        proximityFilter hav origin gdf t)
      ↔ round2 (hav origin f.geometry.centroid) ≤ t := by
  unfold proximityFilter annotate distance_from_poly
  constructor
  · intro h
    have h2 := (List.mem_filter.mp h).2
    simpa using h2
  · intro h
    refine List.mem_filter.mpr ⟨?_, by simpa using h⟩
    exact List.mem_map.mpr ⟨f, hf, rfl⟩

/-- Looking up the bare name `session_state` in the module scope of app.py
raises a NameError: the script never binds that name. -/
theorem lookup_session_state :
    lookupName moduleNames "session_state"
      = Except.error (PyError.nameError "session_state") := by
  rfl

/-- C3: on every input, the guarded pipeline body of app.py line 144 never
runs, and whenever the Confirm-button branch is taken (line 141) or the
postcode resolved so that the second conjunct of the guard is evaluated, the
run aborts with a NameError on the unbound name `session_state`. -/
theorem c3_session_state_never_bound (p b : Bool) (hav : Point → Point → ℚ)
    (origin : Point) (gdf : List Feature) (t : ℚ) (marks : List Bool)
    (provider : Point → Except String (List Day)) :
    (runTopLevel moduleNames p b hav origin gdf t marks provider).pipelineRan
      = false
    ∧ ((b = true ∨ p = true) →
        (runTopLevel moduleNames p b hav origin gdf t marks provider).errored
          = some (PyError.nameError "session_state")) := by
  cases p <;> cases b <;>
    simp [runTopLevel, lookup_session_state]

/-- C3 witness: the theorem at a concrete run with the button pressed. -/
theorem c3_session_state_never_bound_witness :
    (true = true ∨ true = true)
    ∧ (runTopLevel moduleNames true true havEx originEx gdfEx 15 [true, true]
        provC4).errored = some (PyError.nameError "session_state") :=
  ⟨Or.inl rfl,
   (c3_session_state_never_bound true true havEx originEx gdfEx 15 [true, true]
      provC4).2 (Or.inl rfl)⟩

/-- C9: when the postcode fails to resolve, the run emits the invalid-postcode
warning and the guarded pipeline never executes — whether or not the Confirm
button was pressed, no distance is annotated, the proximity filter is never
applied (ranked table empty) and no forecast row is produced. -/
theorem c9_invalid_postcode_blocks_pipeline (b : Bool)
    (hav : Point → Point → ℚ) (origin : Point) (gdf : List Feature) (t : ℚ)
    (marks : List Bool) (provider : Point → Except String (List Day)) :
    invalidPostcodeWarning ∈
      (runTopLevel moduleNames false b hav origin gdf t marks provider).warnings
    ∧ (runTopLevel moduleNames false b hav origin gdf t marks
        provider).pipelineRan = false
    ∧ (runTopLevel moduleNames false b hav origin gdf t marks provider).ranked
        = []
    ∧ (runTopLevel moduleNames false b hav origin gdf t marks
        provider).selection = []
    ∧ (runTopLevel moduleNames false b hav origin gdf t marks
        provider).forecastRows = [] := by
  cases b <;> simp [runTopLevel, lookup_session_state]

/-- C2 witness: the amended theorem applied to the concrete frame `[fEx]`. -/
theorem c2_rounded_before_compare_witness :
    fEx ∈ [fEx]
    ∧ (((fEx, round2 (havC2 originEx fEx.geometry.centroid)) ∈
          proximityFilter havC2 originEx [fEx] 20)
        ↔ round2 (havC2 originEx fEx.geometry.centroid) ≤ 20) :=
  ⟨List.mem_singleton.mpr rfl,
   c2_rounded_before_compare havC2 originEx [fEx] 20 fEx
     (List.mem_singleton.mpr rfl)⟩

/-- Helper: a provider failure at any pair of the list aborts the forecast
loop with an error. -/
theorem forecastLoop_error_of_mem (provider : Point → Except String (List Day))
    (pairs : List (Point × String)) (loc : Point) (name : String) (e : String)
    (hmem : (loc, name) ∈ pairs) (herr : provider loc = Except.error e) :
    ∃ msg, forecastLoop provider pairs = Except.error msg := by
  induction pairs with
  | nil => cases hmem
  | cons hd rest ih =>
    rcases List.mem_cons.mp hmem with heq | hrest
    · refine ⟨e, ?_⟩
      rw [← heq]
      simp [forecastLoop, herr]
    · obtain ⟨l, n⟩ := hd
      cases hp : provider l with
      | error e2 => exact ⟨e2, by simp [forecastLoop, hp]⟩
      | ok days =>
        obtain ⟨msg, hmsg⟩ := ih hrest
        exact ⟨msg, by simp [forecastLoop, hp, hmsg]⟩

/-- C4 counterexample: with two selected locations where the provider
succeeds at the first and fails at the second, the forecast loop of app.py
lines 245-274 aborts: the aggregate is the uncaught provider error, no
records of the first (successful) location are returned and no warning is
emitted — one lookup failure is fatal for the whole batch. -/
theorem c4_counterexample :
    aggregateForecast provC4 [(pA, "A"), (pB, "B")]
      = Except.error "site lookup failed"
    ∧ provC4 pA = Except.ok [[⟨1, "sun", 20, 10, 5⟩]] := by
  exact ⟨rfl, rfl⟩

/-- C4 amended: the loop body has no exception handling, so a failing lookup
for any selected location makes the whole aggregation fail — the result is
an error carrying no forecast records (and the code emits no partial-failure
warning). -/
theorem c4_single_failure_fatal (provider : Point → Except String (List Day))
    (pairs : List (Point × String)) (loc : Point) (name : String) (e : String)
    (hmem : (loc, name) ∈ pairs) (herr : provider loc = Except.error e) :
    ∃ msg, aggregateForecast provider pairs = Except.error msg := by
  obtain ⟨msg, hmsg⟩ :=
    forecastLoop_error_of_mem provider pairs loc name e hmem herr
  exact ⟨msg, by simp [aggregateForecast, hmsg]⟩

/-- C4 witness: the amended theorem at the concrete failing batch. -/
theorem c4_single_failure_fatal_witness :
    ((pB, "B") ∈ [(pA, "A"), (pB, "B")]
      ∧ provC4 pB = Except.error "site lookup failed")
    ∧ ∃ msg, aggregateForecast provC4 [(pA, "A"), (pB, "B")]
        = Except.error msg :=
  ⟨⟨by simp, rfl⟩,
   c4_single_failure_fatal provC4 [(pA, "A"), (pB, "B")] pB "B"
     "site lookup failed" (by simp) rfl⟩

/-- Helper: when the forecast loop succeeds, it produced exactly one block
per (coordinate, name) pair, in pair order. -/
theorem forecastLoop_ok_eq (provider : Point → Except String (List Day))
    (pairs : List (Point × String)) (dfs : List (List ForecastRow))
    (h : forecastLoop provider pairs = Except.ok dfs) :
    dfs = pairs.map (groupBlock provider) := by
  induction pairs generalizing dfs with
  | nil =>
    simp [forecastLoop] at h
    simp [h]
  | cons hd rest ih =>
    obtain ⟨l, n⟩ := hd
    cases hp : provider l with
    | error e => simp [forecastLoop, hp] at h
    | ok days =>
      cases hr : forecastLoop provider rest with
      | error e => simp [forecastLoop, hp, hr] at h
      | ok restDfs =>
        simp [forecastLoop, hp, hr] at h
        simp [← h, groupBlock, hp, ih restDfs hr]

/-- Helper: every row of the block a pair contributes carries that pair as
its location column. -/
theorem groupBlock_location (provider : Point → Except String (List Day))
    (p : Point × String) (r : ForecastRow) (hr : r ∈ groupBlock provider p) :
    r.location = p.2 := by
  unfold groupBlock at hr
  cases hp : provider p.1 with
  | error e => rw [hp] at hr; cases hr
  | ok days =>
    rw [hp] at hr
    unfold buildForecastDf at hr
    obtain ⟨day, _, hr2⟩ := List.mem_flatMap.mp hr
    obtain ⟨ts, _, hts⟩ := List.mem_map.mp hr2
    rw [← hts]

/-- Helper: flattening the days preserves the timestep dates in order. -/
theorem buildForecastDf_dates (name : String) (days : List Day) :
    (buildForecastDf name days).map (fun r => r.date)
      = days.flatten.map (fun ts => ts.date) := by
  induction days with
  | nil => rfl
  | cons d rest ih =>
    simp only [buildForecastDf, List.flatMap_cons, List.flatten_cons,
      List.map_append, List.map_map] at ih ⊢
    rw [ih]
    simp [Function.comp_def]

/-- Helper: the dates of a successful block are the dates of the provider
timesteps, in provider order. -/
theorem groupBlock_dates (provider : Point → Except String (List Day))
    (p : Point × String) (days : List Day)
    (hp : provider p.1 = Except.ok days) :
    (groupBlock provider p).map (fun r => r.date)
      = days.flatten.map (fun ts => ts.date) := by
  simp only [groupBlock, hp]
  exact buildForecastDf_dates p.2 days

/-- C8 counterexample: the forecast loop performs no date sorting.  With a
provider whose two days arrive in reverse chronological order, the aggregate
table of the single selected location has strictly decreasing dates. -/
theorem c8_counterexample :
    aggregateForecast provC8 [(pA, "A")]
      = Except.ok [⟨2, "rain", 1, 2, 3, "A"⟩, ⟨1, "sun", 4, 5, 6, "A"⟩]
    ∧ ¬ List.Chain' (fun a b : ForecastRow => a.date ≤ b.date)
        [⟨2, "rain", 1, 2, 3, "A"⟩, ⟨1, "sun", 4, 5, 6, "A"⟩] := by
  refine ⟨rfl, ?_⟩
  intro hc
  rw [List.chain'_cons] at hc
  exact absurd hc.1 (by decide)

/-- C8 amended: on success the aggregate table is the concatenation of one
block per selected location, in Selection order; every row of a block is
labelled with that block, so location groups are contiguous and follow
Selection order; and within a block rows keep provider order, so dates are
non-decreasing whenever the provider timesteps of that location are
chronologically ordered. -/
theorem c8_grouping_in_selection_order
    (provider : Point → Except String (List Day))
    (pairs : List (Point × String)) (rows : List ForecastRow)
    (h : aggregateForecast provider pairs = Except.ok rows) :
    rows = (pairs.map (groupBlock provider)).flatten
    ∧ (∀ p ∈ pairs, ∀ r ∈ groupBlock provider p, r.location = p.2)
    ∧ (∀ p ∈ pairs, ∀ days, provider p.1 = Except.ok days →
        List.Chain' (fun a b : Timestep => a.date ≤ b.date) days.flatten →
        List.Chain' (fun a b : ForecastRow => a.date ≤ b.date)
          (groupBlock provider p)) := by
  refine ⟨?_, ?_, ?_⟩
  · cases hl : forecastLoop provider pairs with
    | error e => simp only [aggregateForecast, hl] at h; cases h
    | ok dfs =>
      simp only [aggregateForecast, hl] at h
      by_cases hemp : dfs.isEmpty = true
      · rw [if_pos hemp] at h; cases h
      · rw [if_neg hemp] at h
        injection h with h2
        subst h2
        rw [forecastLoop_ok_eq provider pairs dfs hl]
  · intro p _ r hr
    exact groupBlock_location provider p r hr
  · intro p _ days hdays hchain
    have hd := groupBlock_dates provider p days hdays
    have hchain2 : List.Chain' (fun a b : ℕ => a ≤ b)
        ((groupBlock provider p).map (fun r => r.date)) := by
      rw [hd, List.chain'_map]
      exact hchain
    rw [List.chain'_map] at hchain2
    exact hchain2

/-- C8 witness: the amended theorem at a concrete chronological provider. -/
theorem c8_grouping_witness :
    aggregateForecast provGood [(pA, "A")]
      = Except.ok [⟨1, "sun", 20, 10, 5, "A"⟩, ⟨2, "cloud", 18, 30, 7, "A"⟩]
    ∧ ([⟨1, "sun", 20, 10, 5, "A"⟩, ⟨2, "cloud", 18, 30, 7, "A"⟩]
          = (([(pA, "A")]).map (groupBlock provGood)).flatten
       ∧ (∀ p ∈ [(pA, "A")], ∀ r ∈ groupBlock provGood p, r.location = p.2)
       ∧ (∀ p ∈ [(pA, "A")], ∀ days, provGood p.1 = Except.ok days →
            List.Chain' (fun a b : Timestep => a.date ≤ b.date) days.flatten →
            List.Chain' (fun a b : ForecastRow => a.date ≤ b.date)
              (groupBlock provGood p))) :=
  ⟨rfl,
   c8_grouping_in_selection_order provGood [(pA, "A")]
     [⟨1, "sun", 20, 10, 5, "A"⟩, ⟨2, "cloud", 18, 30, 7, "A"⟩] rfl⟩

/-- C5: for any haversine oracle, origin, reserve frame and threshold, a
reserve of the frame is in the Ranked Candidate Set exactly when its distance
annotation (the distance column of line 147) is ≤ the threshold — so every
excluded reserve has annotation > threshold — and the set is sorted
ascending: every adjacent pair of entries has distance[i] ≤ distance[i+1]. -/
theorem c5_filter_and_ranking (hav : Point → Point → ℚ) (origin : Point)
    (gdf : List Feature) (t : ℚ) :
    (∀ f ∈ gdf,
       ((f.name, distance_from_poly hav f.geometry origin)
           ∈ rankedCandidateSet hav origin gdf t
         ↔ distance_from_poly hav f.geometry origin ≤ t))
    ∧ List.Chain' (fun a b : String × ℚ => a.2 ≤ b.2)
        (rankedCandidateSet hav origin gdf t) := by
  constructor
  · intro f hf
    rw [rankedCandidateSet, List.mem_mergeSort]
    unfold nearby_parks proximityFilter
    constructor
    · intro h
      obtain ⟨fd, hfd, heq⟩ := List.mem_map.mp h
      have h2 : fd.2 ≤ t := by simpa using (List.mem_filter.mp hfd).2
      have hsnd : fd.2 = distance_from_poly hav f.geometry origin :=
        congrArg Prod.snd heq
      rwa [hsnd] at h2
    · intro h
      refine List.mem_map.mpr
        ⟨(f, distance_from_poly hav f.geometry origin), ?_, rfl⟩
      refine List.mem_filter.mpr ⟨?_, by simpa using h⟩
      exact List.mem_map.mpr ⟨f, hf, rfl⟩
  · have htrans : ∀ a b c : String × ℚ,
        decide (a.2 ≤ b.2) = true → decide (b.2 ≤ c.2) = true →
        decide (a.2 ≤ c.2) = true := by
      intro a b c hab hbc
      exact decide_eq_true (le_trans (of_decide_eq_true hab)
        (of_decide_eq_true hbc))
    have htotal : ∀ a b : String × ℚ,
        (decide (a.2 ≤ b.2) || decide (b.2 ≤ a.2)) = true := by
      intro a b
      rcases le_total a.2 b.2 with h | h <;> simp [h]
    have hp := List.sorted_mergeSort htrans htotal
      (nearby_parks hav origin gdf t)
    exact (hp.imp (fun h => of_decide_eq_true h)).chain'

/-- C5 witness: the theorem at the concrete two-reserve frame. -/
theorem c5_filter_and_ranking_witness :
    (⟨"A", ⟨pA⟩⟩ : Feature) ∈ gdfEx
    ∧ ((("A", distance_from_poly havEx ⟨pA⟩ originEx)
          ∈ rankedCandidateSet havEx originEx gdfEx 15)
        ↔ distance_from_poly havEx ⟨pA⟩ originEx ≤ 15) :=
  ⟨by decide,
   (c5_filter_and_ranking havEx originEx gdfEx 15).1 ⟨"A", ⟨pA⟩⟩ (by decide)⟩

/-- Helper: zipping against an all-false column and filtering on the flag
keeps nothing. -/
theorem zip_replicate_false_filter (xs : List (String × ℚ)) (n : ℕ) :
    ((xs.zip (List.replicate n false)).filter (fun p => p.2)) = [] := by
  induction xs generalizing n with
  | nil => simp
  | cons x xs ih =>
    cases n with
    | zero => simp
    | succ m =>
      simp only [List.replicate_succ, List.zip_cons_cons, List.filter_cons,
        cond_false, if_neg]
      exact ih m

/-- C6: with the default marking (False column, row 0 set True) and no user
edit, the selection returned by `dataframe_with_selections` on a non-empty
ranked table is exactly its first — nearest — row. -/
theorem c6_default_selects_nearest (df : List (String × ℚ)) (h : df ≠ []) :
    dataframe_with_selections df (defaultMarks df) = [df.head h] := by
  cases df with
  | nil => exact absurd rfl h
  | cons x xs =>
    have hm : defaultMarks (x :: xs)
        = true :: List.replicate xs.length false := by
      simp [defaultMarks, List.replicate]
    rw [hm]
    simp [dataframe_with_selections, zip_replicate_false_filter]

/-- C6 witness: the theorem at a concrete two-row ranked table. -/
theorem c6_default_selects_nearest_witness :
    ([("B", (5 : ℚ)), ("A", 10)] ≠ [])
    ∧ dataframe_with_selections [("B", (5 : ℚ)), ("A", 10)]
        (defaultMarks [("B", (5 : ℚ)), ("A", 10)]) = [("B", (5 : ℚ))] :=
  ⟨by decide, c6_default_selects_nearest [("B", 5), ("A", 10)] (by decide)⟩

/-- Helper: one unfolding step of the selection filter. -/
theorem dataframe_with_selections_cons (x : String × ℚ)
    (xs : List (String × ℚ)) (m : Bool) (ms : List Bool) :
    dataframe_with_selections (x :: xs) (m :: ms)
      = cond m (x :: dataframe_with_selections xs ms)
          (dataframe_with_selections xs ms) := by
  cases m <;> simp [dataframe_with_selections]

/-- C7: for every ranked table and every user marking, the selection is a
sublist of the table — each returned row is a row of the table, unchanged,
so no returned name is absent from the current Ranked Candidate Set. -/
theorem c7_selection_subset (df : List (String × ℚ)) (marks : List Bool) :
    List.Sublist (dataframe_with_selections df marks) df
    ∧ ∀ r ∈ dataframe_with_selections df marks, r ∈ df := by
  have hsub : List.Sublist (dataframe_with_selections df marks) df := by
    induction df generalizing marks with
    | nil => simp [dataframe_with_selections]
    | cons x xs ih =>
      cases marks with
      | nil => simp [dataframe_with_selections]
      | cons m ms =>
        rw [dataframe_with_selections_cons]
        cases m with
        | false => exact (ih ms).cons x
        | true => exact (ih ms).cons₂ x
  exact ⟨hsub, fun r hr => hsub.mem hr⟩

/-- C7 witness: the theorem at a concrete table and marking. -/
theorem c7_selection_subset_witness :
    ("B", (5 : ℚ)) ∈ dataframe_with_selections
        [("B", (5 : ℚ)), ("A", 10)] [true, false]
    ∧ ("B", (5 : ℚ)) ∈ [("B", (5 : ℚ)), ("A", 10)] :=
  ⟨by decide,
   (c7_selection_subset [("B", 5), ("A", 10)] [true, false]).2
     ("B", 5) (by decide)⟩

/-- C10: every option of the weather-feature selectbox is a column of the
aggregated forecast table, and the metric lookup the chart performs succeeds
on every row — the missing-column outcome is unreachable for any selector
choice. -/
theorem c10_selector_columns_total (c : String) (hc : c ∈ weatherOptions) :
    c ∈ forecastColumns
    ∧ ∀ r : ForecastRow, (getMetric c r).isSome = true := by
  fin_cases hc
  · exact ⟨by decide, fun r => rfl⟩
  · exact ⟨by decide, fun r => rfl⟩
  · exact ⟨by decide, fun r => rfl⟩

/-- C10 witness: the theorem at the wind-speed option. -/
theorem c10_selector_columns_total_witness :
    "Wind speed (mph)" ∈ weatherOptions
    ∧ ("Wind speed (mph)" ∈ forecastColumns
       ∧ ∀ r : ForecastRow, (getMetric "Wind speed (mph)" r).isSome = true) :=
  ⟨by decide, c10_selector_columns_total "Wind speed (mph)" (by decide)⟩
